import Mathlib

/-!
Shallow embedding of `nemo/collections/asr/models/clustering_sd_models.py`
(offline clustering speaker diarization): the sliding-window VAD stitcher
(`_eval_vad`), the segment merger (`combine_stamps`), the cluster labeler and
scoring loop (`get_score`), the embedding extraction (`_extract_embeddings`)
and the argument guard of `diarize`.
-/

/-! ### Python string comparison

`combine_stamps` compares the textual time fields with Python's `<=` on
`str`: lexicographic by code point, a string that is a proper prefix of the
other comparing less. -/

def pyStrLeAux : List Char → List Char → Bool
  | [], _ => true
  | _ :: _, [] => false
  | c :: a, d :: b =>
    if c.toNat < d.toNat then true
    else if d.toNat < c.toNat then false
    else pyStrLeAux a b

def pyStrLe (a b : String) : Bool := pyStrLeAux a.data b.data

/-! ### Windowed signal stitcher (`_eval_vad`) -/

/-- Status of window `i`, computed in `_eval_vad` (lines 209-222) from the
recording identities `data` of adjacent windows.  A Python list access out of
range raises `IndexError`; that is modelled by `none`. -/
def window_status (data : List String) (i : Nat) : Option String :=
  if i = 0 then
    match data[i]?, data[i + 1]? with
    | some a, some b => some (if a = b then "start" else "single")
    | _, _ => none
  else if i = data.length - 1 then
    match data[i]?, data[i - 1]? with
    | some a, some b => some (if a = b then "end" else "single")
    | _, _ => none
  else
    match data[i - 1]?, data[i]?, data[i + 1]? with
    | some p, some a, some n =>
      some (if a ≠ p ∧ a = n then "start"
            else if a = p ∧ a = n then "next"
            else if a = p ∧ a ≠ n then "end"
            else "single")
    | _, _, _ => none

/-- Python slice `xs[:-k]` for `k ≥ 0`: the elements with index below
`len xs - k`.  For `k = 0` the stop index `-0 = 0` makes the slice empty. -/
def pySliceDropLast (xs : List α) (k : Nat) : List α :=
  if k = 0 then [] else xs.take (xs.length - k)

/-- The trimmed sample list `to_save` of `_eval_vad` (lines 231-238) for one
window of probabilities `pred`, given `time_unit = int(time_length /
shift_length)`; in the source `trunc = int(time_unit / 2)` and
`trunc_l = time_unit - trunc`, and the slices are `pred[:-trunc]` for
`start`, `pred[trunc:-trunc_l]` for `next`, `pred[trunc_l:]` for `end` and
`pred` itself otherwise. -/
def to_save (status : String) (time_unit : Nat) (pred : List α) : List α :=
  let trunc := time_unit / 2
  let trunc_l := time_unit - trunc
  if status = "start" then pySliceDropLast pred trunc
  else if status = "next" then (pySliceDropLast pred trunc_l).drop trunc
  else if status = "end" then pred.drop trunc_l
  else pred

/-- The trim rule exactly as the specification words it: `single` keeps all
samples, `start` drops the last `trunc_front`, `end` drops the first
`trunc_back`, and `next` drops the first `trunc_back` and the last
`trunc_front`, with `trunc_front = T / 2`, `trunc_back = T - trunc_front`. -/
def spec_kept (status : String) (T : Nat) (pred : List α) : List α :=
  let trunc_front := T / 2
  let trunc_back := T - trunc_front
  if status = "start" then pred.take (pred.length - trunc_front)
  else if status = "next" then (pred.take (pred.length - trunc_front)).drop trunc_back
  else if status = "end" then pred.drop trunc_back
  else pred

/-- The trim rule with the `next` amounts as the code applies them: `next`
drops the first `trunc_front` and the last `trunc_back` samples. -/
def spec_kept_swapped (status : String) (T : Nat) (pred : List α) : List α :=
  let trunc_front := T / 2
  let trunc_back := T - trunc_front
  if status = "start" then pred.take (pred.length - trunc_front)
  else if status = "next" then (pred.take (pred.length - trunc_back)).drop trunc_front
  else if status = "end" then pred.drop trunc_back
  else pred

/-! ### Segment merger (`combine_stamps`) -/

/-- A label line: the three whitespace-separated textual fields
`(start_time, end_time, speaker_tag)` of one stamp. -/
abbrev Stamp := String × String × String

/-- The `while` loop of `combine_stamps`.  The state carries the running
triple `(prev_start, prev_end, prev_speaker)` together with the loop
variables `end`/`speaker` (Python initial values `0` and `'unknown'`), which
are reassigned from the current line before the merge test; the final append
after the loop emits `(prev_start, end, speaker)`. -/
def combineGo (prev_start prev_end prev_speaker endv speakerv : String) :
    List Stamp → List Stamp
  | [] => [(prev_start, endv, speakerv)]
  | (start, e, sp) :: rest =>
    if sp = prev_speaker ∧ pyStrLe start prev_end then
      combineGo prev_start e prev_speaker e sp rest
    else
      (prev_start, prev_end, prev_speaker) :: combineGo start e sp e sp rest

/-- `combine_stamps` (lines 44-60) on pre-split stamp lines.  The source
indexes `stamps[0]` unconditionally, so empty input raises `IndexError` in
Python; that case is mapped to the empty output here and no claim concerns
it. -/
def combine_stamps : List Stamp → List Stamp
  | [] => []
  | (s, e, sp) :: rest => combineGo s e sp "0" "unknown" rest

/-! ### Cluster labeler (`get_score`, lines 114-122) -/

/-- One raw label line for window index `idx` and cluster id `label`:
`start_time = idx * shift`, `end_time = start_time + window`,
`tag = 'speaker_' + str(label)`. -/
def cluster_line (shift window : ℚ) (idx : Nat) (label : Nat) : ℚ × ℚ × String :=
  let start_time := (idx : ℚ) * shift
  (start_time, start_time + window, "speaker_" ++ toString label)

/-- The `for idx, label in enumerate(cluster_method.labels_)` loop, carrying
the running index. -/
def cluster_lines_go (shift window : ℚ) : Nat → List Nat → List (ℚ × ℚ × String)
  | _, [] => []
  | idx, l :: rest => cluster_line shift window idx l :: cluster_lines_go shift window (idx + 1) rest

/-- The raw label lines the cluster labeler builds from the ordered cluster
assignments of one recording. -/
def cluster_lines (shift window : ℚ) (labels : List Nat) : List (ℚ × ℚ × String) :=
  cluster_lines_go shift window 0 labels

/-! ### Embedding extraction (`_extract_embeddings`) -/

/-- The manifest-reading loop of `_extract_embeddings` (lines 253-262):
`uniq_names` is accumulated, and each new name is tested for membership in
`out_embeddings` — a dictionary this loop never writes, so it stays empty
throughout.  `none` models the `KeyError` raise. -/
def read_uniq_names_go (names : List String) (out_embeddings : List (String × Nat)) :
    List String → Option (List String)
  | [] => some names
  | n :: rest =>
    let names' := names ++ [n]
    if out_embeddings.any (fun p => p.1 = n) then none
    else read_uniq_names_go names' out_embeddings rest

/-- Entry point of the manifest-reading loop: both accumulators start
empty. -/
def read_uniq_names (structures : List String) : Option (List String) :=
  read_uniq_names_go [] [] structures

/-- Python dict assignment `d[k] = v`: replaces the value at an existing key,
otherwise appends the binding (Python dicts keep insertion order). -/
def dictInsert (d : List (String × α)) (k : String) (v : α) : List (String × α) :=
  if d.any (fun p => p.1 = k) then
    d.map (fun p => if p.1 = k then (k, v) else p)
  else d ++ [(k, v)]

/-- The embedding loop of `_extract_embeddings` (lines 264-270):
`out_embeddings[uniq_names[i]] = mean embedding of batch i`, with no
duplicate check of any kind. -/
def store_embeddings (names : List String) (embs : List α) : List (String × α) :=
  (names.zip embs).foldl (fun d p => dictInsert d p.1 p.2) []

/-! ### Scoring loop (`get_score`, lines 107-136) -/

/-- A hypothesis or reference object as built by
`labels_to_pyannote_object`: the recording identifier together with the
label lines it was built from. -/
abbrev HypObj := String × List Stamp

/-- A Python exception escaping the scoring loop. -/
inductive PyErr
  | file_not_found
  | name_err
deriving DecidableEq

/-- Running state of the `get_score` loop: the `DER` variable and the
`hypothesis` variable, `none` while still unbound. -/
structure ScoreState where
  DER : ℚ
  hyp : Option HypObj

/-- One recording of a scored batch: its identifier (`uniq_key` reduced) and
the merged label lines built for it earlier in the same loop body. -/
structure ScoredRec where
  identifier : String
  labels : List Stamp

/-- One iteration of the `get_score` loop, scoring part (lines 125-130).  If
the ground-truth directory exists, the reference is read from
`truth_rttm_files` (`none` models a missing rttm file: `open` raises
`FileNotFoundError`) and `DER = metric(reference, hypothesis)` is evaluated
with the `hypothesis` built for the previous recording — `name_err` when it
is still unbound on the first iteration.  Only after the `if` block does
line 130 assign `hypothesis` from the current recording's labels, modelled
by setting `hyp` in every non-error outcome. -/
def get_score_step (dir_exists : Bool) (truth_rttm_files : String → Option (List Stamp))
    (metric : HypObj → HypObj → ℚ) (st : ScoreState) (rec : ScoredRec) :
    Except PyErr ScoreState :=
  if dir_exists then
    match truth_rttm_files rec.identifier with
    | none => Except.error PyErr.file_not_found
    | some truth_labels =>
      match st.hyp with
      | none => Except.error PyErr.name_err
      | some h =>
        Except.ok ⟨metric (rec.identifier, truth_labels) h, some (rec.identifier, rec.labels)⟩
  else Except.ok ⟨st.DER, some (rec.identifier, rec.labels)⟩

/-- The `for uniq_key in embeddings.keys()` loop of `get_score`: `DER`
starts at `0` and `hypothesis` starts unbound. -/
def get_score_loop (dir_exists : Bool) (truth_rttm_files : String → Option (List Stamp))
    (metric : HypObj → HypObj → ℚ) (recs : List ScoredRec) : Except PyErr ScoreState :=
  recs.foldlM (get_score_step dir_exists truth_rttm_files metric) ⟨0, none⟩

/-! ### `diarize` argument guard (lines 284-304) -/

/-- How `diarize` proceeds after its argument guard. -/
inductive DiarizeOutcome
  | empty_dict
  | pipeline (mfst_file : String)
deriving DecidableEq

/-- Argument handling of `diarize`: with no audio paths (either `None` or an
empty list) and no configured manifest it returns the empty dict `{}`;
otherwise it picks the manifest file (written from the given paths, or the
configured one) and runs the batch pipeline. -/
def diarize_entry (paths2audio_files : Option (List String))
    (manifest_file : Option String) (out_dir : String) : DiarizeOutcome :=
  if (paths2audio_files = none ∨ paths2audio_files = some []) ∧ manifest_file = none then
    DiarizeOutcome.empty_dict
  else
    match paths2audio_files with
    | some _ => DiarizeOutcome.pipeline (out_dir ++ "/manifest.json")
    | none => DiarizeOutcome.pipeline (manifest_file.getD "")

/-! ## Theorems -/

/-- C1, counterexample: with `T = 3` (odd, so `trunc_front = 1 ≠ 2 =
trunc_back`) and a five-sample window, the code's `next` trim
`pred[trunc:-trunc_l]` keeps `[1, 2]`, while the claimed rule (drop the
first `trunc_back` and the last `trunc_front`) keeps `[2, 3]`. -/
theorem c1_counterexample :
    ¬ (to_save "next" 3 ([0, 1, 2, 3, 4] : List Nat)
        = spec_kept "next" 3 ([0, 1, 2, 3, 4] : List Nat)) := by decide

/-- C1, amended: for `T ≥ 2` the kept samples are all samples for `single`,
all but the last `trunc_front` for `start`, all but the first `trunc_back`
for `end`, and all but the first `trunc_front` and the last `trunc_back`
for `next`. -/
theorem c1_to_save_trim_rule (status : String) (T : Nat) (hT : 2 ≤ T)
    (pred : List α) : to_save status T pred = spec_kept_swapped status T pred := by
  have h1 : ¬ (T / 2 = 0) := by omega
  have h2 : ¬ (T - T / 2 = 0) := by omega
  simp only [to_save, spec_kept_swapped, pySliceDropLast, if_neg h1, if_neg h2]

/-- Witness for the amended C1 theorem at `T = 3`. -/
theorem c1_to_save_trim_rule_witness :
    2 ≤ 3 ∧ to_save "next" 3 ([0, 1, 2, 3, 4] : List Nat)
        = spec_kept_swapped "next" 3 ([0, 1, 2, 3, 4] : List Nat) :=
  ⟨by decide, c1_to_save_trim_rule "next" 3 (by decide) [0, 1, 2, 3, 4]⟩

/-- C2: on the single-line input `"1.0 2.0 speaker_0"` the merger emits one
segment, but its end and speaker are the loop's initial values `0` and
`'unknown'` — the `while` body never runs and the final append uses stale
variables — not the line's own fields. -/
theorem c2_single_line_eval :
    combine_stamps [("1.0", "2.0", "speaker_0")] = [("1.0", "0", "unknown")] := rfl

/-- C3: two manifest entries with the same identity key pass the duplicate
check (it tests membership in `out_embeddings`, which is still empty during
that loop), and the second embedding then silently overwrites the first in
the dictionary. -/
theorem c3_duplicate_key_eval :
    read_uniq_names ["d@b@c.wav", "d@b@c.wav"] = some ["d@b@c.wav", "d@b@c.wav"] ∧
    store_embeddings ["d@b@c.wav", "d@b@c.wav"] ([7, 9] : List Nat)
      = [("d@b@c.wav", 9)] := by
  exact ⟨rfl, rfl⟩

/-- C4: the merger is not idempotent.  Two overlapping same-speaker lines
merge into the single segment `(0, 2, speaker_0)`; applying `combine_stamps`
to that output replaces its end and speaker by the stale initial values,
giving `(0, 0, unknown)` instead of the same output. -/
theorem c4_not_idempotent_eval :
    combine_stamps [("0", "1", "speaker_0"), ("0.5", "2", "speaker_0")]
      = [("0", "2", "speaker_0")] ∧
    combine_stamps (combine_stamps [("0", "1", "speaker_0"), ("0.5", "2", "speaker_0")])
      = [("0", "0", "unknown")] := by
  exact ⟨by decide, by decide⟩

/-- C5, counterexample: with the ground-truth directory present but no rttm
file for the one recording of the batch, the batch does not continue:
`get_score` aborts with a file-not-found error instead of skipping that
recording. -/
theorem c5_counterexample :
    get_score_loop true (fun _ => none) (fun _ _ => 0)
      [⟨"rec1", [("0", "1", "speaker_0")]⟩] = Except.error PyErr.file_not_found := rfl

/-- Helper for C5: with the ground-truth directory absent, every iteration
leaves `DER` unchanged and only rebinds the hypothesis. -/
theorem foldl_no_dir (truth_rttm_files : String → Option (List Stamp))
    (metric : HypObj → HypObj → ℚ) :
    ∀ (recs : List ScoredRec) (st : ScoreState),
      ∃ hy : Option HypObj,
        recs.foldlM (get_score_step false truth_rttm_files metric) st
          = Except.ok ⟨st.DER, hy⟩
  | [], st => ⟨st.hyp, rfl⟩
  | r :: rest, st => by
    have ih := foldl_no_dir truth_rttm_files metric rest ⟨st.DER, some (r.identifier, r.labels)⟩
    simpa [List.foldlM, get_score_step] using ih

/-- C5, amended: when the ground-truth directory does not exist, scoring is
skipped for every recording of the batch, the batch runs to completion, and
the batch-level `DER` keeps its initial value `0`; a missing individual
ground-truth file inside an existing directory instead aborts the batch. -/
theorem c5_no_ground_truth_dir (truth_rttm_files : String → Option (List Stamp))
    (metric : HypObj → HypObj → ℚ) (recs : List ScoredRec) :
    ∃ st : ScoreState,
      get_score_loop false truth_rttm_files metric recs = Except.ok st ∧ st.DER = 0 := by
  obtain ⟨hy, h⟩ := foldl_no_dir truth_rttm_files metric recs ⟨0, none⟩
  exact ⟨⟨0, hy⟩, h, rfl⟩

/-- Helper for C6: the labeler loop emits one line per cluster label. -/
theorem cluster_lines_go_length (shift window : ℚ) (labels : List Nat) :
    ∀ idx : Nat, (cluster_lines_go shift window idx labels).length = labels.length := by
  induction labels with
  | nil => intro idx; rfl
  | cons l rest ih => intro idx; simp [cluster_lines_go, ih]

/-- Helper for C6: the line at position `i` of the labeler loop started at
index `idx` is built from running index `idx + i`. -/
theorem cluster_lines_go_get (shift window : ℚ) :
    ∀ (labels : List Nat) (idx i : Nat) (l : Nat), labels[i]? = some l →
      (cluster_lines_go shift window idx labels)[i]?
        = some (cluster_line shift window (idx + i) l)
  | [], _, i, l, h => by simp at h
  | a :: rest, idx, 0, l, h => by
    simp only [List.getElem?_cons_zero, Option.some.injEq] at h
    subst h
    simp [cluster_lines_go]
  | a :: rest, idx, i + 1, l, h => by
    simp only [List.getElem?_cons_succ] at h
    have ih := cluster_lines_go_get shift window rest (idx + 1) i l h
    simpa [cluster_lines_go, Nat.add_assoc, Nat.add_comm 1 i] using ih

/-- C6: for every ordered cluster assignment, the labeler emits exactly one
raw label line per embedding, with `start_time = i * shift_length`,
`end_time = start_time + window_length` and
`speaker_tag = "speaker_" ++ cluster id`. -/
theorem c6_cluster_labeler (shift window : ℚ) (labels : List Nat) :
    (cluster_lines shift window labels).length = labels.length ∧
    ∀ (i : Nat) (l : Nat), labels[i]? = some l →
      (cluster_lines shift window labels)[i]?
        = some ((i : ℚ) * shift, (i : ℚ) * shift + window, "speaker_" ++ toString l) := by
  constructor
  · exact cluster_lines_go_length shift window labels 0
  · intro i l h
    have := cluster_lines_go_get shift window labels 0 i l h
    simpa [cluster_lines, cluster_line] using this

/-- Witness for C6 at a two-embedding batch. -/
theorem c6_cluster_labeler_witness :
    (cluster_lines (1/2) 2 [1, 0])[1]?
      = some (((1 : Nat) : ℚ) * (1/2), ((1 : Nat) : ℚ) * (1/2) + 2,
          "speaker_" ++ toString (0 : Nat)) :=
  (c6_cluster_labeler (1/2) 2 [1, 0]).2 1 0 (by decide)

/-- C7: called with no audio paths (either `None` or an empty list) and no
configured manifest file, `diarize` returns the empty result without
raising. -/
theorem c7_empty_input (paths2audio_files : Option (List String))
    (manifest_file : Option String) (out_dir : String)
    (hp : paths2audio_files = none ∨ paths2audio_files = some [])
    (hm : manifest_file = none) :
    diarize_entry paths2audio_files manifest_file out_dir = DiarizeOutcome.empty_dict := by
  subst hm
  rcases hp with h | h <;> subst h <;> simp [diarize_entry]

/-- Witness for C7 with `None` paths. -/
theorem c7_empty_input_witness :
    diarize_entry none none "outputs" = DiarizeOutcome.empty_dict :=
  c7_empty_input none none "outputs" (Or.inl rfl) rfl

/-- C8: in the scoring branch the metric compares the current recording's
reference against the hypothesis held over from the previous iteration —
the `hypothesis` variable is assigned only after the metric call — and on
the first iteration the name is unbound, so the metric call fails. -/
theorem c8_stale_hypothesis (truth_rttm_files : String → Option (List Stamp))
    (metric : HypObj → HypObj → ℚ) (rec : ScoredRec) (truth : List Stamp)
    (hfile : truth_rttm_files rec.identifier = some truth) :
    get_score_step true truth_rttm_files metric ⟨0, none⟩ rec
      = Except.error PyErr.name_err ∧
    ∀ (st : ScoreState) (h : HypObj), st.hyp = some h →
      get_score_step true truth_rttm_files metric st rec
        = Except.ok ⟨metric (rec.identifier, truth) h, some (rec.identifier, rec.labels)⟩ := by
  constructor
  · simp [get_score_step, hfile]
  · intro st h hh
    simp [get_score_step, hfile, hh]

/-- Witness for C8: a concrete first-iteration failure and a concrete
second-iteration call that scores against the previous hypothesis. -/
theorem c8_stale_hypothesis_witness :
    get_score_step true (fun _ => some [("0", "1", "speaker_0")]) (fun _ _ => (5 : ℚ))
        ⟨0, none⟩ ⟨"r", []⟩
      = Except.error PyErr.name_err ∧
    get_score_step true (fun _ => some [("0", "1", "speaker_0")]) (fun _ _ => (5 : ℚ))
        ⟨0, some ("prev", [])⟩ ⟨"r", []⟩
      = Except.ok ⟨5, some ("r", [])⟩ :=
  ⟨(c8_stale_hypothesis (fun _ => some [("0", "1", "speaker_0")]) (fun _ _ => (5 : ℚ))
      ⟨"r", []⟩ [("0", "1", "speaker_0")] rfl).1,
   (c8_stale_hypothesis (fun _ => some [("0", "1", "speaker_0")]) (fun _ _ => (5 : ℚ))
      ⟨"r", []⟩ [("0", "1", "speaker_0")] rfl).2 ⟨0, some ("prev", [])⟩ ("prev", []) rfl⟩

/-- C9: with a single-entry manifest, the status computation of the first
(and only) window reads the identity of a following window that does not
exist, so it fails with an out-of-bounds access instead of assigning the
status `single`. -/
theorem c9_single_manifest_oob (data : List String) (h : data.length = 1) :
    window_status data 0 = none := by
  match data with
  | [] => simp at h
  | [a] => rfl
  | a :: b :: l => simp at h

/-- Witness for C9 at a concrete one-entry manifest. -/
theorem c9_single_manifest_oob_witness :
    window_status ["audio1"] 0 = none :=
  c9_single_manifest_oob ["audio1"] rfl

/-- C10: a chronologically ordered, same-speaker input on which the merge
condition, a lexicographic comparison of decimal strings, disagrees with
the numeric comparison: `"10.0" <= "9.5"` holds as strings although
`10.0 > 9.5` as numbers, so the two temporally disjoint segments are wrongly
merged into one. -/
theorem c10_lexicographic_merge :
    pyStrLe "10.0" "9.5" = true ∧
    ¬ ((10.0 : ℚ) ≤ (9.5 : ℚ)) ∧
    (0 : ℚ) ≤ 10.0 ∧ (9.5 : ℚ) < 10.0 ∧
    combine_stamps [("0.0", "9.5", "speaker_0"), ("10.0", "11.0", "speaker_0")]
      = [("0.0", "11.0", "speaker_0")] := by
  refine ⟨by decide, by norm_num, by norm_num, by norm_num, by decide⟩
